import Mathlib

/-!
Verification of the AuctionProperty repository: the SHAB publication
ingestion/normalization pipeline and the frontend data model.

The first part embeds the frontend code that is present in the repository
(`frontend/app/auctions/[id]/page.tsx` mock `getAuctionData`, the
`types/auction.ts` interfaces, and the zustand favorites store).  The second
part models the backend pipeline (classifier, XML normalizer, upsert writer,
batch orchestrator); the backend Python sources are not part of the checked
tree, so those definitions are modelled from the specification, as their doc
comments state.
-/

/- ---------------- Frontend data model (frontend/README.md types) ------- -/

structure Title where
  de : String
  en : String
  it : String
  fr : String
deriving DecidableEq, Repr

structure AddressSwitzerland where
  street : String
  house_number : String
  swiss_zip_code : String
  town : String
deriving DecidableEq, Repr

structure Residence where
  select_type : String
deriving DecidableEq, Repr

structure RegistrationOffice where
  id : String
  display_name : String
  street : String
  street_number : String
  swiss_zip_code : String
  town : String
  contains_post_office_box : Bool
deriving DecidableEq, Repr

structure Circulation where
  entry_deadline : String
  comment_entry_deadline : Option String
deriving DecidableEq, Repr

structure Registration where
  entry_deadline : String
  comment_entry_deadline : Option String
deriving DecidableEq, Repr

structure AuctionObject where
  description : String
deriving DecidableEq, Repr

structure Auction where
  id : String
  date : String
  time : String
  location : String
  circulation : Circulation
  registration : Registration
  auction_objects : List AuctionObject
deriving DecidableEq, Repr

structure Debtor where
  id : String
  debtor_type : String
  name : String
  prename : Option String
  date_of_birth : Option String
  country_of_origin : Option String
  residence : Residence
  address_switzerland : Option AddressSwitzerland
  address : String
  city : String
  postal_code : String
  legal_form : Option String
deriving DecidableEq, Repr

structure Contact where
  id : String
  name : String
  address : String
  postal_code : String
  city : String
  phone : Option String
  email : Option String
  contact_type : String
  office_id : Option String
  contains_post_office_box : Bool
deriving DecidableEq, Repr

structure Publication where
  id : String
  publication_date : String
  expiration_date : String
  title : Title
  language : String
  canton : String
  registration_office : RegistrationOffice
  auctions : List Auction
  debtors : List Debtor
  contacts : List Contact
deriving DecidableEq, Repr

structure ApiResponse where
  success : Bool
  url : String
  publications_count : Nat
  publications : List Publication
deriving DecidableEq, Repr

/- ------- Mock fixture (frontend auction detail page, getAuctionData) ---- -/

def mockData : ApiResponse :=
  { success := true
    url := "https://www.shab.ch/api/v1/publications/bb0b8622-803e-413e-8d71-bb6da17f5b0c/xml"
    publications_count := 1
    publications :=
      [{ id := "bb0b8622-803e-413e-8d71-bb6da17f5b0c"
         publication_date := "2025-09-05"
         expiration_date := "2026-09-05"
         title :=
           { de := "Betreibungsamtliche Grundstücksteigerung Blaise Blein"
             en := "Property auction initiated by the debt enforcement office Blaise Blein"
             it := "Incanto immobiliare Blaise Blein"
             fr := "Vente aux enchères d\x27immeubles dans le cadre de la poursuite Blaise Blein" }
         language := "fr"
         canton := "VS"
         registration_office :=
           { id := "4095950d-a5d2-11e8-99a2-0050569d3c43"
             display_name := "Office des poursuites des districts de Sion, Hérens et Conthey"
             street := "Rue de la Piscine"
             street_number := "10"
             swiss_zip_code := "1950"
             town := "Sion"
             contains_post_office_box := false }
         auctions :=
           [{ id := "6c8521f9-55c9-4bca-99cf-f65fb72a9143"
              date := "2025-10-23"
              time := "11:00:00"
              location := "au Café de la Place, Place du Cotterd 1, 1981 Vex"
              circulation :=
                { entry_deadline := "2025-09-25", comment_entry_deadline := none }
              registration :=
                { entry_deadline := "2025-10-03", comment_entry_deadline := none }
              auction_objects :=
                [{ description := "<p>Commune de Vex :</p><p>Parcelle No 4687, plan No 9, nom local &#34;Mayens des Plans&#34;, surface totale de 1\x27469 m2, soit un bâtiment de 69 m2, une forêt dense / forêt de 177m2 et un pré, champ de 1\x27223 m2</p><p>Estimation officielle : Fr. 342\x27000.00</p>" }] }]
         debtors :=
           [{ id := "88d1d485-4859-4265-b75e-4338f51bc4cd"
              debtor_type := "person"
              name := "Blein"
              prename := some "Blaise"
              date_of_birth := some "1964-10-15"
              country_of_origin := none
              residence := { select_type := "switzerland" }
              address_switzerland :=
                some { street := "Rue du Port", house_number := "25"
                       swiss_zip_code := "1815", town := "Clarens" }
              address := "Rue du Port 25"
              city := "Clarens"
              postal_code := "1815"
              legal_form := none }]
         contacts :=
           [{ id := "f7ab5c82-86bb-4329-b345-3ec3934f04f5"
              name := "Office des poursuites des districts de Sion, Hérens et Conthey"
              address := "Rue de la Piscine 10"
              postal_code := "1950"
              city := "Sion"
              phone := some "+41 27 606 40 00"
              email := some "info@office-poursuites-sion.ch"
              contact_type := "office"
              office_id := some "4095950d-a5d2-11e8-99a2-0050569d3c43"
              contains_post_office_box := false }] }] }

def getAuctionData (id : String) : Option ApiResponse :=
  match mockData.publications.head? with
  | some p => if id = p.id then some mockData else none
  | none => none

/- ----------- Favorites store (frontend/store/auctionStore.ts) ---------- -/

def addToFavorites (auctionId : String) (favoriteAuctions : List String) :
    List String :=
  if favoriteAuctions.contains auctionId then favoriteAuctions
  else favoriteAuctions ++ [auctionId]

def removeFromFavorites (auctionId : String) (favoriteAuctions : List String) :
    List String :=
  favoriteAuctions.filter (fun id => id != auctionId)

def isFavorite (auctionId : String) (favoriteAuctions : List String) : Bool :=
  favoriteAuctions.contains auctionId

inductive FavAction where
  | add (id : String)
  | remove (id : String)
deriving DecidableEq, Repr

def applyFav (s : List String) : FavAction → List String
  | .add id => addToFavorites id s
  | .remove id => removeFromFavorites id s

def runFavs (acts : List FavAction) : List String :=
  acts.foldl applyFav []

/- ------------------- Backend ingestion pipeline model ------------------ -/

/-- Modelled from the spec: error taxonomy §7; the backend error classes are
not under the checked sources. -/
inductive ParseError where
  | malformed
  | missingField (field : String)
deriving DecidableEq, Repr

/-- Modelled from the spec: §4.3, a transport failure carrying the identifier
and underlying cause. -/
structure FetchError where
  identifier : String
  cause : String
deriving DecidableEq, Repr

/-- Modelled from the spec: §4.1 classifier outcome. -/
inductive PubType where
  | AUCTION
  | OTHER
  | UNKNOWN
deriving DecidableEq, Repr

/-- Modelled from the spec: a contact node embedded directly in the auction
XML (always present, possibly with missing phone/email, no post-office-box
flag). -/
structure XmlContact where
  id : String
  name : String
  address : String
  postal_code : String
  city : String
  phone : Option String
  email : Option String
  contact_type : String
  office_id : Option String
deriving DecidableEq, Repr

/-- Modelled from the spec: the supplementary JSON contact document fetched by
office id, which may add phone/email and a post-office-box flag. -/
structure JsonContact where
  office_id : String
  phone : Option String
  email : Option String
  contains_post_office_box : Bool
deriving DecidableEq, Repr

def nonEmptyField : Option String → Bool
  | some s => s != ""
  | none => false

/-- Modelled from the spec: the Contact derived purely from the XML stub (the
post-office-box flag is not present in the XML source). -/
def xmlOnlyContact (x : XmlContact) : Contact :=
  { id := x.id, name := x.name, address := x.address,
    postal_code := x.postal_code, city := x.city, phone := x.phone,
    email := x.email, contact_type := x.contact_type,
    office_id := x.office_id, contains_post_office_box := false }

/-- Modelled from the spec: §4.2 contact merge policy — same office id, the
JSON-sourced non-empty fields overwrite the XML-sourced corresponding fields;
XML-sourced fields are retained when the JSON source lacks them or the JSON
fetch fails (`none`). -/
def mergeContact (x : XmlContact) (json : Option JsonContact) : Contact :=
  match json with
  | none => xmlOnlyContact x
  | some j =>
    { xmlOnlyContact x with
      phone := if nonEmptyField j.phone then j.phone else x.phone
      email := if nonEmptyField j.email then j.email else x.email
      contains_post_office_box := j.contains_post_office_box }

/-- Modelled from the spec: §3 Debtor is polymorphic over Person/Company; the
design notes (§9) make the payload a discriminated union. -/
inductive DebtorPayload where
  | person (prename : String) (date_of_birth : String)
      (country_of_origin : Option String)
  | company (legal_form : Option String)
deriving DecidableEq, Repr

def DebtorPayload.isPerson : DebtorPayload → Bool
  | .person _ _ _ => true
  | .company _ => false

def DebtorPayload.isCompany : DebtorPayload → Bool
  | .person _ _ _ => false
  | .company _ => true

/-- Modelled from the spec: the Debtor produced by the normalizer — variant
payload plus the shared residence classification, optional structured Swiss
address and the flattened display address/city/postal-code triple. -/
structure ParsedDebtor where
  name : String
  debtor_type : String
  payload : DebtorPayload
  residence : String
  address_switzerland : Option AddressSwitzerland
  address : String
  city : String
  postal_code : String
deriving DecidableEq, Repr

def discriminatorMatches (d : ParsedDebtor) : Bool :=
  match d.payload with
  | .person _ _ _ => d.debtor_type == "person"
  | .company _ => d.debtor_type == "company"

/-- Modelled from the spec: the raw XML debtor node, with the fields of both
variants possibly incidentally present, a company-name/legal-form marker, the
residence classification and both address shapes. -/
structure DebtorNode where
  hasCompanyMarker : Bool
  name : String
  prename : String
  date_of_birth : String
  country_of_origin : Option String
  legal_form : Option String
  residence : String
  swiss_street : String
  swiss_house_number : String
  swiss_zip : String
  swiss_town : String
  foreign_address : String
  foreign_city : String
  foreign_postal_code : String
deriving DecidableEq, Repr

/-- Modelled from the spec: §4.2 debtor variant detection (company marker ⇒
Company, else Person; the chosen variant determines which fields are read) and
residence/address resolution (`switzerland` ⇒ structured Swiss address read
and flattened into the display triple; `foreign` ⇒ only the flattened triple,
structured Swiss fields unset). The SHAB parser itself is not under the
checked sources. -/
def parseDebtor (n : DebtorNode) : ParsedDebtor :=
  let addrCH : Option AddressSwitzerland :=
    if n.residence = "switzerland" then
      some { street := n.swiss_street, house_number := n.swiss_house_number,
             swiss_zip_code := n.swiss_zip, town := n.swiss_town }
    else none
  let addr : String :=
    if n.residence = "switzerland" then
      n.swiss_street ++ " " ++ n.swiss_house_number
    else n.foreign_address
  let cty : String :=
    if n.residence = "switzerland" then n.swiss_town else n.foreign_city
  let pc : String :=
    if n.residence = "switzerland" then n.swiss_zip else n.foreign_postal_code
  if n.hasCompanyMarker then
    { name := n.name, debtor_type := "company",
      payload := .company n.legal_form, residence := n.residence,
      address_switzerland := addrCH, address := addr, city := cty,
      postal_code := pc }
  else
    { name := n.name, debtor_type := "person",
      payload := .person n.prename n.date_of_birth n.country_of_origin,
      residence := n.residence, address_switzerland := addrCH,
      address := addr, city := cty, postal_code := pc }

/-- Modelled from the spec: a raw XML auction group — date and time both
possibly absent in the source, deadlines, location, nested object
descriptions kept as opaque HTML text. -/
structure AuctionNode where
  id : String
  date : Option String
  time : Option String
  location : String
  circulation_entry_deadline : String
  circulation_comment_deadline : Option String
  registration_entry_deadline : String
  registration_comment_deadline : Option String
  object_descriptions : List String
deriving DecidableEq, Repr

/-- Modelled from the spec: §3 Auction — date mandatory, time nullable
(absent means time not yet determined). -/
structure ParsedAuction where
  id : String
  date : String
  time : Option String
  location : String
  circulation : Circulation
  registration : Registration
  auction_objects : List AuctionObject
deriving DecidableEq, Repr

/-- Modelled from the spec: §4.2 — parsing an auction fails with `ParseError`
when its date is absent (date is mandatory, time is optional). -/
def parseAuction (n : AuctionNode) : Except ParseError ParsedAuction :=
  match n.date with
  | none => .error (.missingField "auction date")
  | some d =>
    .ok { id := n.id, date := d, time := n.time, location := n.location,
          circulation := { entry_deadline := n.circulation_entry_deadline,
                           comment_entry_deadline := n.circulation_comment_deadline },
          registration := { entry_deadline := n.registration_entry_deadline,
                            comment_entry_deadline := n.registration_comment_deadline },
          auction_objects := n.object_descriptions.map AuctionObject.mk }

/-- Modelled from the spec: auctions preserve source document order; the first
failing auction aborts the publication parse. -/
def parseAuctions : List AuctionNode → Except ParseError (List ParsedAuction)
  | [] => .ok []
  | n :: rest =>
    match parseAuction n, parseAuctions rest with
    | .error e, _ => .error e
    | .ok _, .error e => .error e
    | .ok a, .ok tail => .ok (a :: tail)

def lookupLang (nodes : List (String × String)) (lang : String) : String :=
  match nodes.find? (fun p => p.fst == lang) with
  | some p => p.snd
  | none => ""

/-- Modelled from the spec: §4.2 multilingual title extraction — iterate the
language-tagged title nodes and build the 4-key mapping, filling any absent
language with the empty string. -/
def buildTitle (nodes : List (String × String)) : Title :=
  { de := lookupLang nodes "de", en := lookupLang nodes "en",
    it := lookupLang nodes "it", fr := lookupLang nodes "fr" }

/-- The title record viewed as a key-value mapping from language codes. -/
def titleMap (t : Title) : List (String × String) :=
  [("de", t.de), ("fr", t.fr), ("it", t.it), ("en", t.en)]

/-- Modelled from the spec: a fetched raw XML document — well-formedness, the
rubric/sub-rubric marker, and the optional heterogeneous content the
normalizer walks. -/
structure RawDoc where
  wellFormed : Bool
  subRubric : String
  identifier : String
  publication_date : Option String
  expiration_date : String
  language : String
  canton : Option String
  title_nodes : List (String × String)
  registration_office : Option RegistrationOffice
  auction_nodes : List AuctionNode
  debtor_nodes : List DebtorNode
  contact_nodes : List XmlContact

/-- Modelled from the spec: §4.1 — the classifier recognizes the
debt-enforcement-auction sub-rubric `SB01` as `AUCTION`, the
commercial-register markers `HR01`/`HR02` as `OTHER`, returns `UNKNOWN` on any
other well-formed document, and raises `ParseError` only on malformed XML
(sub-rubric values per backend/scripts/PUBLICATION_TYPES_GUIDE.md). -/
def classify (d : RawDoc) : Except ParseError PubType :=
  if ¬ d.wellFormed then .error .malformed
  else if d.subRubric = "SB01" then .ok .AUCTION
  else if d.subRubric = "HR01" ∨ d.subRubric = "HR02" then .ok .OTHER
  else .ok .UNKNOWN

/-- Modelled from the spec: §3 `ParsedPublication`. -/
structure ParsedPublication where
  identifier : String
  publication_date : String
  expiration_date : String
  title : Title
  language : String
  canton : String
  registration_office : Option RegistrationOffice
  auctions : List ParsedAuction
  debtors : List ParsedDebtor
  contacts : List Contact
deriving DecidableEq, Repr

/-- Modelled from the spec: §4.2 normalizer — fails with `ParseError` when the
document is malformed or a required field (publication date, canton, at least
one title language) is absent or an auction date is absent; builds the 4-key
title, classifies debtors, merges each XML contact with the JSON contact
looked up by office id (`jsonLookup` returning `none` models a failed or
missing JSON fetch and degrades to the XML-only contact). -/
def parsePublication (jsonLookup : String → Option JsonContact) (d : RawDoc) :
    Except ParseError ParsedPublication :=
  if ¬ d.wellFormed then .error .malformed
  else
    match d.publication_date, d.canton with
    | none, _ => .error (.missingField "publication date")
    | some _, none => .error (.missingField "canton")
    | some pd, some ct =>
      if d.title_nodes.isEmpty then .error (.missingField "title")
      else
        match parseAuctions d.auction_nodes with
        | .error e => .error e
        | .ok aus =>
          .ok { identifier := d.identifier, publication_date := pd,
                expiration_date := d.expiration_date,
                title := buildTitle d.title_nodes, language := d.language,
                canton := ct, registration_office := d.registration_office,
                auctions := aus,
                debtors := d.debtor_nodes.map parseDebtor,
                contacts := d.contact_nodes.map (fun c =>
                  mergeContact c (match c.office_id with
                    | some oid => jsonLookup oid
                    | none => none)) }

/-- Modelled from the spec: §4.4 upsert outcome. -/
inductive UpsertResult where
  | INSERTED
  | SKIPPED_DUPLICATE
deriving DecidableEq, Repr

/-- Modelled from the spec: the relational store — publications plus the
dependent rows, each carrying its foreign key. -/
structure DbState where
  publications : List ParsedPublication
  auctions : List (String × ParsedAuction)
  auction_objects : List (String × AuctionObject)
  debtors : List (String × ParsedDebtor)
  contacts : List (String × Contact)
deriving DecidableEq, Repr

def emptyDb : DbState :=
  { publications := [], auctions := [], auction_objects := [],
    debtors := [], contacts := [] }

/-- Modelled from the spec: §4.4 — insert the full entity graph in dependency
order (publication → auctions → auction-objects; publication → debtors;
publication → contacts) as one atomic unit. -/
def insertGraph (p : ParsedPublication) (s : DbState) : DbState :=
  { publications := s.publications ++ [p]
    auctions := s.auctions ++ p.auctions.map (fun a => (p.identifier, a))
    auction_objects := s.auction_objects ++
      (p.auctions.map (fun a => a.auction_objects.map (fun o => (a.id, o)))).flatten
    debtors := s.debtors ++ p.debtors.map (fun dd => (p.identifier, dd))
    contacts := s.contacts ++ p.contacts.map (fun c => (p.identifier, c)) }

/-- Modelled from the spec: §4.4 upsert — within one transaction, check
existence of a publication row by identifier; if present, no-op and report
`SKIPPED_DUPLICATE`; if absent, insert the graph and report `INSERTED`. -/
def upsert (p : ParsedPublication) (s : DbState) : UpsertResult × DbState :=
  if s.publications.any (fun q => q.identifier == p.identifier) then
    (.SKIPPED_DUPLICATE, s)
  else (.INSERTED, insertGraph p s)

/-- Modelled from the spec: §6 per-identifier ingestion result. -/
inductive IngestOutcome where
  | inserted
  | skippedDuplicate
  | skippedNonAuction
  | errored
deriving DecidableEq, Repr

/-- Modelled from the spec: classify → (if AUCTION) normalize → upsert; OTHER
and UNKNOWN documents are recorded as skipped, failures as errored. -/
def processDocument (jsonLookup : String → Option JsonContact) (d : RawDoc)
    (s : DbState) : IngestOutcome × DbState :=
  match classify d with
  | .error _ => (.errored, s)
  | .ok .AUCTION =>
    match parsePublication jsonLookup d with
    | .error _ => (.errored, s)
    | .ok p =>
      match upsert p s with
      | (.INSERTED, s2) => (.inserted, s2)
      | (.SKIPPED_DUPLICATE, s2) => (.skippedDuplicate, s2)
  | .ok _ => (.skippedNonAuction, s)

/-- Modelled from the spec: §4.5 — one identifier's unit of work: fetch →
classify → parse → upsert, any per-identifier failure caught and recorded as
`errored` without aborting the run. -/
def processIdentifier (fetch : String → Except FetchError RawDoc)
    (jsonLookup : String → Option JsonContact) (s : DbState) (i : String) :
    IngestOutcome × DbState :=
  match fetch i with
  | .error _ => (.errored, s)
  | .ok d => processDocument jsonLookup d s

/-- Modelled from the spec: §4.5 orchestrator — every identifier of the batch
is processed in order, each one's outcome recorded. -/
def runOutcomes (fetch : String → Except FetchError RawDoc)
    (jsonLookup : String → Option JsonContact) (s : DbState) :
    List String → List IngestOutcome
  | [] => []
  | i :: rest =>
    let r := processIdentifier fetch jsonLookup s i
    r.fst :: runOutcomes fetch jsonLookup r.snd rest

/-- Modelled from the spec: §4.5 aggregate statistics. -/
structure Statistics where
  total : Nat
  inserted : Nat
  skippedDuplicate : Nat
  skippedNonAuction : Nat
  errored : Nat
deriving DecidableEq, Repr

def statsOf (ids : List String) (outs : List IngestOutcome) : Statistics :=
  { total := ids.length
    inserted := outs.countP (fun o => o == .inserted)
    skippedDuplicate := outs.countP (fun o => o == .skippedDuplicate)
    skippedNonAuction := outs.countP (fun o => o == .skippedNonAuction)
    errored := outs.countP (fun o => o == .errored) }

/-- Modelled from the spec: §4.5 `run` over a list of identifiers, returning
the aggregate statistics. -/
def runBatch (fetch : String → Except FetchError RawDoc)
    (jsonLookup : String → Option JsonContact) (ids : List String)
    (s : DbState) : Statistics :=
  statsOf ids (runOutcomes fetch jsonLookup s ids)

def fetchFails (fetch : String → Except FetchError RawDoc) (i : String) :
    Bool :=
  match fetch i with
  | .error _ => true
  | .ok _ => false

/-- True when processing identifier `i` errors: its fetch fails, or its
document is malformed, or it classifies as `AUCTION` but fails to parse. -/
def pipelineFails (fetch : String → Except FetchError RawDoc)
    (jsonLookup : String → Option JsonContact) (i : String) : Bool :=
  match fetch i with
  | .error _ => true
  | .ok d =>
    match classify d with
    | .error _ => true
    | .ok .AUCTION =>
      match parsePublication jsonLookup d with
      | .error _ => true
      | .ok _ => false
    | .ok _ => false

def isOkB {ε α : Type} : Except ε α → Bool
  | .ok _ => true
  | .error _ => false

/- ------------- Consistency predicates on the flat Debtor row ----------- -/

def personFieldsPopulated (fd : Debtor) : Bool :=
  fd.prename.isSome || fd.date_of_birth.isSome || fd.country_of_origin.isSome

def flatDiscriminatorConsistent (fd : Debtor) : Bool :=
  (personFieldsPopulated fd != fd.legal_form.isSome) &&
  (if fd.debtor_type == "person" then personFieldsPopulated fd
   else if fd.debtor_type == "company" then fd.legal_form.isSome
   else false)

def swissAddressFlattened (fd : Debtor) : Bool :=
  if fd.residence.select_type == "switzerland" then
    match fd.address_switzerland with
    | some a => (fd.address == a.street ++ " " ++ a.house_number) &&
        (fd.city == a.town) && (fd.postal_code == a.swiss_zip_code)
    | none => false
  else fd.address_switzerland.isNone

/- ------------------- Concrete sample inputs and runs ------------------- -/

def noJson : String → Option JsonContact := fun _ => none

def auctionNodeNoTime : AuctionNode :=
  { id := "auc-1", date := some "2025-10-23", time := none
    location := "Vex", circulation_entry_deadline := "2025-09-25"
    circulation_comment_deadline := none
    registration_entry_deadline := "2025-10-03"
    registration_comment_deadline := none
    object_descriptions := ["<p>Parcelle No 4687</p>"] }

def auctionNodeNoDate : AuctionNode :=
  { id := "auc-2", date := none, time := some "11:00:00"
    location := "Sion", circulation_entry_deadline := "2025-09-25"
    circulation_comment_deadline := none
    registration_entry_deadline := "2025-10-03"
    registration_comment_deadline := none
    object_descriptions := [] }

def swissNode : DebtorNode :=
  { hasCompanyMarker := false, name := "Blein", prename := "Blaise"
    date_of_birth := "1964-10-15", country_of_origin := none
    legal_form := none, residence := "switzerland"
    swiss_street := "Rue du Port", swiss_house_number := "25"
    swiss_zip := "1815", swiss_town := "Clarens"
    foreign_address := "", foreign_city := "", foreign_postal_code := "" }

def foreignNode : DebtorNode :=
  { hasCompanyMarker := true, name := "Acme SA", prename := ""
    date_of_birth := "", country_of_origin := none
    legal_form := some "SA", residence := "foreign"
    swiss_street := "", swiss_house_number := "", swiss_zip := ""
    swiss_town := "", foreign_address := "1 Main Street"
    foreign_city := "Lyon", foreign_postal_code := "69001" }

def sampleXmlContact : XmlContact :=
  { id := "c-1", name := "Office des poursuites", address := "Rue de la Piscine 10"
    postal_code := "1950", city := "Sion", phone := none, email := none
    contact_type := "office", office_id := some "office-1" }

def sampleJsonContact : JsonContact :=
  { office_id := "office-1", phone := some "+41 27 606 40 00"
    email := some "info@office-poursuites-sion.ch"
    contains_post_office_box := true }

/-- A well-formed SB01 document that parses successfully. -/
def sampleDoc : RawDoc :=
  { wellFormed := true, subRubric := "SB01", identifier := "pub-1"
    publication_date := some "2025-09-05", expiration_date := "2026-09-05"
    language := "fr", canton := some "VS"
    title_nodes := [("fr", "Vente aux enchères"), ("de", "Steigerung")]
    registration_office := none
    auction_nodes := [auctionNodeNoTime]
    debtor_nodes := [swissNode]
    contact_nodes := [sampleXmlContact] }

/-- A well-formed HR02 (commercial register) document whose structural content
incidentally looks like an auction document. -/
def hrDoc : RawDoc :=
  { wellFormed := true, subRubric := "HR02", identifier := "pub-hr"
    publication_date := some "2025-09-05", expiration_date := "2026-09-05"
    language := "de", canton := some "ZH"
    title_nodes := [("de", "Handelsregister")]
    registration_office := none
    auction_nodes := [auctionNodeNoTime]
    debtor_nodes := [swissNode, foreignNode]
    contact_nodes := [sampleXmlContact] }

/-- A well-formed SB01 document whose auction date is absent, so that its
parse fails with `ParseError` although its fetch succeeded. -/
def cxBadDoc : RawDoc :=
  { wellFormed := true, subRubric := "SB01", identifier := "pub-bad"
    publication_date := some "2025-09-05", expiration_date := "2026-09-05"
    language := "fr", canton := some "VS"
    title_nodes := [("fr", "Vente")]
    registration_office := none
    auction_nodes := [auctionNodeNoDate]
    debtor_nodes := []
    contact_nodes := [] }

/-- A transport where the fetch of `id-a` fails and every other fetch returns
a document whose parse fails. -/
def cxFetch : String → Except FetchError RawDoc := fun i =>
  if i = "id-a" then .error { identifier := "id-a", cause := "timeout" }
  else .ok cxBadDoc

/-- A transport where only the fetch of `bad` fails and every other fetch
returns a cleanly parsing document. -/
def wFetch : String → Except FetchError RawDoc := fun i =>
  if i = "bad" then .error { identifier := "bad", cause := "timeout" }
  else .ok sampleDoc

def samplePub : ParsedPublication :=
  { identifier := "pub-1", publication_date := "2025-09-05"
    expiration_date := "2026-09-05"
    title := buildTitle [("fr", "Vente aux enchères")]
    language := "fr", canton := "VS", registration_office := none
    auctions := [{ id := "auc-1", date := "2025-10-23", time := none
                   location := "Vex"
                   circulation := { entry_deadline := "2025-09-25"
                                    comment_entry_deadline := none }
                   registration := { entry_deadline := "2025-10-03"
                                     comment_entry_deadline := none }
                   auction_objects := [{ description := "<p>Parcelle</p>" }] }]
    debtors := [parseDebtor swissNode]
    contacts := [mergeContact sampleXmlContact none] }

/- ------------------------------ Theorems ------------------------------- -/

theorem addToFavorites_nodup {s : List String} (h : s.Nodup) (x : String) :
    (addToFavorites x s).Nodup := by
  unfold addToFavorites
  split
  · exact h
  · next hc =>
    refine List.Nodup.append h (List.nodup_singleton x) ?_
    intro a ha hb
    simp only [List.mem_singleton] at hb
    subst hb
    exact hc (List.elem_iff.mpr ha)

theorem runFavs_nodup_aux (acts : List FavAction) (s : List String)
    (h : s.Nodup) : (acts.foldl applyFav s).Nodup := by
  induction acts generalizing s with
  | nil => exact h
  | cons a rest ih =>
    cases a with
    | add x => exact ih _ (addToFavorites_nodup h x)
    | remove x => exact ih _ (List.Nodup.filter _ h)

/-- C10: the favorites store keeps `favoriteAuctions` duplicate-free — from
the empty list, after any sequence of `addToFavorites`/`removeFromFavorites`
each auction id occurs at most once; `addToFavorites` is idempotent;
`removeFromFavorites` removes every occurrence of the given id; and
`isFavorite` returns true exactly when the id is in the list. -/
theorem claim10_favorites_store :
    (∀ acts x, (runFavs acts).count x ≤ 1) ∧
    (∀ s x, addToFavorites x (addToFavorites x s) = addToFavorites x s) ∧
    (∀ s x, (removeFromFavorites x s).count x = 0) ∧
    (∀ s x, isFavorite x s = true ↔ x ∈ s) := by
  refine ⟨?_, ?_, ?_, ?_⟩
  · intro acts x
    exact List.nodup_iff_count_le_one.mp
      (runFavs_nodup_aux acts [] List.nodup_nil) x
  · intro s x
    unfold addToFavorites
    split
    · next hc => simp [hc]
    · next hc =>
      have : (s ++ [x]).contains x = true := by
        simp [List.contains]
      simp [this]
  · intro s x
    rw [List.count_eq_zero]
    intro hmem
    have := List.of_mem_filter hmem
    simp at this
  · intro s x
    exact List.elem_iff

/-- C10 witness: concrete run of the store operations. -/
theorem claim10_witness :
    (runFavs [.add "a", .add "b", .add "a", .remove "b"]).count "a" ≤ 1 ∧
    addToFavorites "a" (addToFavorites "a" ["b"]) =
      addToFavorites "a" ["b"] ∧
    (removeFromFavorites "a" ["a", "b", "a"]).count "a" = 0 ∧
    (isFavorite "a" ["b", "a"] = true ↔ "a" ∈ ["b", "a"]) :=
  ⟨claim10_favorites_store.1 [.add "a", .add "b", .add "a", .remove "b"] "a",
   claim10_favorites_store.2.1 ["b"] "a",
   claim10_favorites_store.2.2.1 ["a", "b", "a"] "a",
   claim10_favorites_store.2.2.2 ["b", "a"] "a"⟩

/-- C1: for the fixture publication identifier
`bb0b8622-803e-413e-8d71-bb6da17f5b0c`, `getAuctionData` returns a
publication with canton `VS`, exactly one auction dated `2025-10-23` at
`11:00:00`, exactly one Person debtor named Blein/Blaise resident in
Switzerland, exactly one auction object, and all four title languages
populated with non-empty strings. -/
theorem claim1_getAuctionData_fixture :
    ∃ r p a d o,
      getAuctionData "bb0b8622-803e-413e-8d71-bb6da17f5b0c" = some r ∧
      r.publications = [p] ∧
      p.canton = "VS" ∧
      p.auctions = [a] ∧ a.date = "2025-10-23" ∧ a.time = "11:00:00" ∧
      p.debtors = [d] ∧ d.debtor_type = "person" ∧ d.name = "Blein" ∧
      d.prename = some "Blaise" ∧ d.residence.select_type = "switzerland" ∧
      a.auction_objects = [o] ∧
      p.title.de ≠ "" ∧ p.title.fr ≠ "" ∧ p.title.it ≠ "" ∧ p.title.en ≠ "" :=
  ⟨mockData, _, _, _, _, rfl, rfl, rfl, rfl, rfl, rfl, rfl, rfl, rfl, rfl,
   rfl, rfl, by decide, by decide, by decide, by decide⟩

/-- C3: upsert is idempotent — if the first ingestion of a publication
reported `INSERTED`, the second upsert of the same publication finds the
existing row, reports `SKIPPED_DUPLICATE`, performs no insert (the state and
hence every row count is unchanged). -/
theorem claim3_upsert_idempotent (p : ParsedPublication) (s : DbState)
    (h : (upsert p s).fst = .INSERTED) :
    (upsert p (upsert p s).snd).fst = .SKIPPED_DUPLICATE ∧
    (upsert p (upsert p s).snd).snd = (upsert p s).snd ∧
    (upsert p (upsert p s).snd).snd.publications.length =
      (upsert p s).snd.publications.length ∧
    (upsert p (upsert p s).snd).snd.auctions.length =
      (upsert p s).snd.auctions.length ∧
    (upsert p (upsert p s).snd).snd.debtors.length =
      (upsert p s).snd.debtors.length ∧
    (upsert p (upsert p s).snd).snd.contacts.length =
      (upsert p s).snd.contacts.length := by
  by_cases hc : s.publications.any (fun q => q.identifier == p.identifier)
  · simp [upsert, hc] at h
  · have hs : (upsert p s).snd = insertGraph p s := by simp [upsert, hc]
    have hdup : (insertGraph p s).publications.any
        (fun q => q.identifier == p.identifier) = true := by
      simp [insertGraph, List.any_append]
    rw [hs]
    simp [upsert, hdup]

/-- C3 witness: a concrete publication upserted twice into the empty store. -/
theorem claim3_witness :
    (upsert samplePub (upsert samplePub emptyDb).snd).fst =
      .SKIPPED_DUPLICATE ∧
    (upsert samplePub (upsert samplePub emptyDb).snd).snd =
      (upsert samplePub emptyDb).snd := by
  have h := claim3_upsert_idempotent samplePub emptyDb rfl
  exact ⟨h.1, h.2.1⟩

/-- C4: a document bearing the commercial-register marker (`HR01`/`HR02`)
never produces an Auction, Debtor or AuctionObject row, whatever its
structural content; and only `SB01` documents classify as `AUCTION` and so
proceed to full normalization. -/
theorem claim4_commercial_register_gate
    (jl : String → Option JsonContact) (d : RawDoc) (s : DbState)
    (h : d.subRubric = "HR01" ∨ d.subRubric = "HR02") :
    (processDocument jl d s).snd.auctions = s.auctions ∧
    (processDocument jl d s).snd.debtors = s.debtors ∧
    (processDocument jl d s).snd.auction_objects = s.auction_objects ∧
    (processDocument jl d s).fst ≠ .inserted ∧
    (∀ d2 : RawDoc, classify d2 = .ok .AUCTION → d2.subRubric = "SB01") := by
  have gate : ∀ d2 : RawDoc, classify d2 = .ok .AUCTION →
      d2.subRubric = "SB01" := by
    intro d2 hcl
    unfold classify at hcl
    split at hcl
    · exact absurd hcl (by simp)
    · split at hcl
      · next hsb => exact hsb
      · split at hcl
        · simp at hcl
        · simp at hcl
  have hcl : classify d = .ok .OTHER ∨ classify d = .error .malformed := by
    unfold classify
    rcases h with h | h <;> rw [h] <;> by_cases hw : d.wellFormed <;>
      simp [hw]
  rcases hcl with hcl | hcl <;>
    simp [processDocument, hcl] <;> exact gate

/-- C4 witness: a concrete HR02 document, whose content incidentally contains
auction, debtor and object nodes, adds no auction/debtor/object row. -/
theorem claim4_witness :
    (processDocument noJson hrDoc emptyDb).snd.auctions = emptyDb.auctions ∧
    (processDocument noJson hrDoc emptyDb).snd.debtors = emptyDb.debtors ∧
    (processDocument noJson hrDoc emptyDb).snd.auction_objects =
      emptyDb.auction_objects ∧
    (processDocument noJson hrDoc emptyDb).fst ≠ .inserted ∧
    sampleDoc.subRubric = "SB01" := by
  have h := claim4_commercial_register_gate noJson hrDoc emptyDb (Or.inr rfl)
  exact ⟨h.1, h.2.1, h.2.2.1, h.2.2.2.1, h.2.2.2.2 sampleDoc rfl⟩

/-- C6: the parsed Auction's time is nullable — a node with an absent time
still parses (the result carries `time = none`), while the date is mandatory:
`parseAuction` succeeds exactly when the date is present, and fails with a
`ParseError` naming the auction date when it is absent. -/
theorem claim6_auction_time_nullable (n : AuctionNode) :
    isOkB (parseAuction n) = n.date.isSome ∧
    (∀ a, parseAuction n = .ok a → a.time = n.time ∧ some a.date = n.date) ∧
    (n.date = none → parseAuction n = .error (.missingField "auction date")) := by
  cases hd : n.date <;> simp [parseAuction, hd, isOkB]

/-- C6 witness: a node with a date but no time parses successfully; a node
with a time but no date fails. -/
theorem claim6_witness :
    isOkB (parseAuction auctionNodeNoTime) = true ∧
    (∃ a, parseAuction auctionNodeNoTime = .ok a ∧ a.time = none) ∧
    parseAuction auctionNodeNoDate = .error (.missingField "auction date") := by
  have h1 := claim6_auction_time_nullable auctionNodeNoTime
  have h2 := claim6_auction_time_nullable auctionNodeNoDate
  refine ⟨by rw [h1.1]; rfl, ?_, h2.2.2 rfl⟩
  cases h : parseAuction auctionNodeNoTime with
  | error e =>
    have hok : isOkB (parseAuction auctionNodeNoTime) = true := by
      rw [h1.1]; rfl
    rw [h] at hok
    simp [isOkB] at hok
  | ok a => exact ⟨a, rfl, (h1.2.1 a h).1⟩

theorem parsePublication_title (jl : String → Option JsonContact)
    (d : RawDoc) (p : ParsedPublication)
    (h : parsePublication jl d = .ok p) :
    p.title = buildTitle d.title_nodes := by
  unfold parsePublication at h
  split at h
  · simp at h
  · split at h
    · simp at h
    · simp at h
    · split at h
      · simp at h
      · split at h
        · simp at h
        · injection h with h2
          rw [← h2]

/-- C2: the multilingual title mapping always carries exactly the four keys
de, fr, it, en, each bound to a (possibly empty) string — whatever title
nodes the source document offers, for every successfully parsed publication,
and for the fixture publication served by the frontend. -/
theorem claim2_title_always_four_keys :
    (∀ nodes, (titleMap (buildTitle nodes)).map Prod.fst =
      ["de", "fr", "it", "en"]) ∧
    (∀ jl d p, parsePublication jl d = .ok p →
      (titleMap p.title).map Prod.fst = ["de", "fr", "it", "en"]) ∧
    (mockData.publications.all
      (fun q => (titleMap q.title).map Prod.fst ==
        ["de", "fr", "it", "en"])) = true := by
  refine ⟨fun _ => rfl, ?_, by decide⟩
  intro jl d p h
  rw [parsePublication_title jl d p h]
  rfl

/-- C2 witness: a concrete document parses successfully and its title map has
exactly the four language keys. -/
theorem claim2_witness :
    ∃ p, parsePublication noJson sampleDoc = .ok p ∧
      (titleMap p.title).map Prod.fst = ["de", "fr", "it", "en"] := by
  have hok : isOkB (parsePublication noJson sampleDoc) = true := by decide
  cases h : parsePublication noJson sampleDoc with
  | error e => rw [h] at hok; simp [isOkB] at hok
  | ok p =>
    exact ⟨p, rfl, claim2_title_always_four_keys.2.1 noJson sampleDoc p h⟩

/-- C5: for every parsed Debtor exactly one of the Person and Company
payloads is populated and it matches the `debtor_type` discriminator; the
fixture debtor served by the frontend satisfies the same invariant on the
flat row shape. -/
theorem claim5_debtor_discriminator :
    (∀ n : DebtorNode,
      ((parseDebtor n).payload.isPerson !=
        (parseDebtor n).payload.isCompany) = true ∧
      discriminatorMatches (parseDebtor n) = true ∧
      ((parseDebtor n).debtor_type = "person" ∨
        (parseDebtor n).debtor_type = "company")) ∧
    (mockData.publications.all
      (fun q => q.debtors.all flatDiscriminatorConsistent)) = true := by
  refine ⟨?_, by decide⟩
  intro n
  cases hm : n.hasCompanyMarker <;>
    simp [parseDebtor, hm, discriminatorMatches,
      DebtorPayload.isPerson, DebtorPayload.isCompany]

/-- C7: residence resolution — a Swiss-resident debtor carries the structured
Swiss address and its flattening equals the display triple (address = street
plus house number, city = town, postal code = zip); a foreign-resident debtor
carries only the flattened triple, the structured Swiss address staying
unset. The fixture debtor served by the frontend satisfies the same
flattening. -/
theorem claim7_residence_address (n : DebtorNode) :
    (n.residence = "switzerland" →
      (parseDebtor n).address_switzerland =
        some { street := n.swiss_street, house_number := n.swiss_house_number,
               swiss_zip_code := n.swiss_zip, town := n.swiss_town } ∧
      ∀ a, (parseDebtor n).address_switzerland = some a →
        (parseDebtor n).address = a.street ++ " " ++ a.house_number ∧
        (parseDebtor n).city = a.town ∧
        (parseDebtor n).postal_code = a.swiss_zip_code) ∧
    (n.residence = "foreign" →
      (parseDebtor n).address_switzerland = none ∧
      (parseDebtor n).address = n.foreign_address ∧
      (parseDebtor n).city = n.foreign_city ∧
      (parseDebtor n).postal_code = n.foreign_postal_code) ∧
    (mockData.publications.all
      (fun q => q.debtors.all swissAddressFlattened)) = true := by
  refine ⟨?_, ?_, by decide⟩
  · intro h
    cases hm : n.hasCompanyMarker <;> simp [parseDebtor, hm, h]
  · intro h
    have hne : ¬(n.residence = "switzerland") := by rw [h]; decide
    cases hm : n.hasCompanyMarker <;> simp [parseDebtor, hm, hne]

/-- C7 witness: a concrete Swiss-resident node and a concrete
foreign-resident node. -/
theorem claim7_witness :
    (parseDebtor swissNode).address_switzerland =
      some { street := "Rue du Port", house_number := "25",
             swiss_zip_code := "1815", town := "Clarens" } ∧
    (parseDebtor swissNode).address = "Rue du Port" ++ " " ++ "25" ∧
    (parseDebtor foreignNode).address_switzerland = none := by
  have h1 := (claim7_residence_address swissNode).1 rfl
  have h2 := (claim7_residence_address foreignNode).2.1 rfl
  exact ⟨h1.1, (h1.2 _ h1.1).1, h2.1⟩

/-- C8: contact merge precedence — when the XML contact's phone/email are
empty and the JSON contact for the same office has non-empty phone/email,
the merged Contact carries the JSON values; when the JSON fetch fails
(`none`), the merged Contact equals the XML-only contact unchanged. -/
theorem claim8_contact_merge (x : XmlContact) (j : JsonContact)
    (_hxp : x.phone = none) (_hxe : x.email = none)
    (hjp : nonEmptyField j.phone = true) (hje : nonEmptyField j.email = true) :
    (mergeContact x (some j)).phone = j.phone ∧
    (mergeContact x (some j)).email = j.email ∧
    ∀ x2 : XmlContact, mergeContact x2 none = xmlOnlyContact x2 := by
  refine ⟨?_, ?_, fun _ => rfl⟩ <;> simp [mergeContact, hjp, hje]

/-- C8 witness: a concrete XML stub merged with a concrete JSON contact, and
with a failed JSON fetch. -/
theorem claim8_witness :
    (mergeContact sampleXmlContact (some sampleJsonContact)).phone =
      some "+41 27 606 40 00" ∧
    (mergeContact sampleXmlContact (some sampleJsonContact)).email =
      some "info@office-poursuites-sion.ch" ∧
    mergeContact sampleXmlContact none = xmlOnlyContact sampleXmlContact := by
  have h := claim8_contact_merge sampleXmlContact sampleJsonContact
    rfl rfl (by decide) (by decide)
  exact ⟨h.1, h.2.1, h.2.2 sampleXmlContact⟩

theorem processIdentifier_erroredB (fetch : String → Except FetchError RawDoc)
    (jl : String → Option JsonContact) (s : DbState) (i : String) :
    ((processIdentifier fetch jl s i).fst == IngestOutcome.errored) =
      pipelineFails fetch jl i := by
  unfold processIdentifier pipelineFails
  cases hf : fetch i with
  | error e => rfl
  | ok d =>
    dsimp only
    unfold processDocument
    cases hc : classify d with
    | error e => rfl
    | ok t =>
      cases t with
      | AUCTION =>
        cases hp : parsePublication jl d with
        | error e => rfl
        | ok p =>
          dsimp only
          rcases hu : upsert p s with ⟨r, s2⟩
          cases r <;> rfl
      | OTHER => rfl
      | UNKNOWN => rfl

theorem runOutcomes_length (fetch : String → Except FetchError RawDoc)
    (jl : String → Option JsonContact) (ids : List String) : ∀ s,
    (runOutcomes fetch jl s ids).length = ids.length := by
  induction ids with
  | nil => intro s; rfl
  | cons i rest ih =>
    intro s
    simp only [runOutcomes, List.length_cons, ih]

theorem runOutcomes_errored (fetch : String → Except FetchError RawDoc)
    (jl : String → Option JsonContact) (ids : List String) : ∀ s,
    (runOutcomes fetch jl s ids).countP (fun o => o == IngestOutcome.errored) =
      ids.countP (pipelineFails fetch jl) := by
  induction ids with
  | nil => intro s; rfl
  | cons i rest ih =>
    intro s
    simp only [runOutcomes, List.countP_cons, ih, processIdentifier_erroredB]

theorem outcome_partition (outs : List IngestOutcome) :
    outs.countP (fun o => o == IngestOutcome.inserted) +
    outs.countP (fun o => o == IngestOutcome.skippedDuplicate) +
    outs.countP (fun o => o == IngestOutcome.skippedNonAuction) +
    outs.countP (fun o => o == IngestOutcome.errored) = outs.length := by
  induction outs with
  | nil => rfl
  | cons o rest ih =>
    simp only [List.countP_cons, List.length_cons]
    cases o <;> simp <;> omega

theorem fetchFails_pipelineFails (fetch : String → Except FetchError RawDoc)
    (jl : String → Option JsonContact) (i : String)
    (h : fetchFails fetch i = true) : pipelineFails fetch jl i = true := by
  unfold fetchFails at h
  unfold pipelineFails
  cases hf : fetch i with
  | error e => rfl
  | ok d => rw [hf] at h; simp at h

theorem runOutcomes_position (fetch : String → Except FetchError RawDoc)
    (jl : String → Option JsonContact) (ids : List String) : ∀ s k i,
    ids.get? k = some i → pipelineFails fetch jl i = false →
    ∃ o, (runOutcomes fetch jl s ids).get? k = some o ∧
      o ≠ IngestOutcome.errored := by
  induction ids with
  | nil => intro s k i h _; simp at h
  | cons a rest ih =>
    intro s k i h hpf
    cases k with
    | zero =>
      have ha : a = i := by
        simp only [List.get?] at h
        injection h
      subst ha
      refine ⟨(processIdentifier fetch jl s a).fst, ?_, ?_⟩
      · simp only [runOutcomes, List.get?]
      · intro he
        have hb := processIdentifier_erroredB fetch jl s a
        rw [he, hpf] at hb
        simp at hb
    | succ k2 =>
      simp only [List.get?] at h
      have := ih (processIdentifier fetch jl s a).snd k2 i h hpf
      simpa only [runOutcomes, List.get?] using this

/-- C9 (amended): for every batch in which exactly one identifier's fetch
raises `FetchError` and every other identifier's processing does not itself
fail (its document classifies and, when an auction, parses), the run
completes with `errored = 1`, with
`inserted + skippedDuplicate + skippedNonAuction = N - 1`, and every
identifier — including each one after the failing one — is still processed
and receives a non-errored outcome. -/
theorem claim9_partial_failure_isolation
    (fetch : String → Except FetchError RawDoc)
    (jl : String → Option JsonContact) (ids : List String) (s : DbState)
    (h1 : ids.countP (fetchFails fetch) = 1)
    (h2 : ∀ i ∈ ids, fetchFails fetch i = false →
      pipelineFails fetch jl i = false) :
    (runBatch fetch jl ids s).errored = 1 ∧
    (runBatch fetch jl ids s).inserted +
      (runBatch fetch jl ids s).skippedDuplicate +
      (runBatch fetch jl ids s).skippedNonAuction = ids.length - 1 ∧
    (runOutcomes fetch jl s ids).length = ids.length ∧
    (∀ k i, ids.get? k = some i → fetchFails fetch i = false →
      ∃ o, (runOutcomes fetch jl s ids).get? k = some o ∧
        o ≠ IngestOutcome.errored) := by
  have hcong : ids.countP (pipelineFails fetch jl) =
      ids.countP (fetchFails fetch) := by
    apply List.countP_congr
    intro i hi
    constructor
    · intro hp
      by_cases hf : fetchFails fetch i = true
      · exact hf
      · have hn := h2 i hi (by simpa using hf)
        rw [hp] at hn
        exact absurd hn (by simp)
    · intro hf
      exact fetchFails_pipelineFails fetch jl i hf
  have herr : (runBatch fetch jl ids s).errored = 1 := by
    show (runOutcomes fetch jl s ids).countP
      (fun o => o == IngestOutcome.errored) = 1
    rw [runOutcomes_errored, hcong, h1]
  refine ⟨herr, ?_, runOutcomes_length fetch jl ids s, ?_⟩
  · have hp := outcome_partition (runOutcomes fetch jl s ids)
    have hl := runOutcomes_length fetch jl ids s
    have he : (runOutcomes fetch jl s ids).countP
        (fun o => o == IngestOutcome.errored) = 1 := herr
    show (runOutcomes fetch jl s ids).countP
        (fun o => o == IngestOutcome.inserted) +
      (runOutcomes fetch jl s ids).countP
        (fun o => o == IngestOutcome.skippedDuplicate) +
      (runOutcomes fetch jl s ids).countP
        (fun o => o == IngestOutcome.skippedNonAuction) = ids.length - 1
    omega
  · intro k i hk hf
    exact runOutcomes_position fetch jl ids s k i hk
      (h2 i (List.get?_mem hk) hf)

/-- C9 counterexample to the claim as stated: in the batch `[id-a, id-b]`
exactly one identifier's fetch raises `FetchError` (`id-a`), yet the run
reports `errored = 2`, because `id-b` fetches a document whose auction date
is absent and so fails to parse — per-identifier parse failures are also
counted in `errored`. -/
theorem claim9_counterexample :
    (["id-a", "id-b"].countP (fetchFails cxFetch) = 1) ∧
    (runBatch cxFetch noJson ["id-a", "id-b"] emptyDb).errored = 2 := by
  constructor <;> rfl

/-- C9 witness: a concrete three-identifier batch whose middle fetch fails
and whose other identifiers process cleanly. -/
theorem claim9_witness :
    (runBatch wFetch noJson ["good-1", "bad", "good-2"] emptyDb).errored = 1 ∧
    (runBatch wFetch noJson ["good-1", "bad", "good-2"] emptyDb).inserted +
      (runBatch wFetch noJson ["good-1", "bad", "good-2"] emptyDb).skippedDuplicate +
      (runBatch wFetch noJson ["good-1", "bad", "good-2"] emptyDb).skippedNonAuction =
      ["good-1", "bad", "good-2"].length - 1 ∧
    (∃ o, (runOutcomes wFetch noJson emptyDb
      ["good-1", "bad", "good-2"]).get? 2 = some o ∧
      o ≠ IngestOutcome.errored) := by
  have h := claim9_partial_failure_isolation wFetch noJson
    ["good-1", "bad", "good-2"] emptyDb (by decide) (by decide)
  exact ⟨h.1, h.2.1, h.2.2.2 2 "good-2" rfl (by decide)⟩
